import Mathlib

/-
  Verification of the authentication and authorization core of the
  fitness-portal repository.

  Shallow embedding of:
  - apps/api/src/services/auth.service.ts  (AuthService)
  - the authentication/authorization middleware (authenticate,
    requireRole, requireOwnership)
  - apps/api/src/config/index.ts           (jwt configuration)

  Time is modelled as a single Nat clock whose unit is the granularity of
  token timestamps (jsonwebtoken iat/exp). Tokens are modelled as records
  of the signed content: jsonwebtoken HS256 signing is deterministic, so
  two sign calls with the same payload, key, expiry window and clock value
  produce the same token string; record equality mirrors string equality.
-/

namespace FitnessPortal

/-- Prisma enum Role. -/
inductive Role where
  | ADMIN
  | CLIENT
deriving DecidableEq, Repr

/-- Prisma model User, as read by the auth service: id, unique email,
name, passwordHash, role, active. -/
structure User where
  id : String
  email : String
  name : String
  passwordHash : String
  role : Role
  active : Bool
deriving DecidableEq, Repr

/-- types/index.ts JwtPayload: userId, email, role. -/
structure JwtPayload where
  userId : String
  email : String
  role : Role
deriving DecidableEq, Repr

/-- The two error classes jsonwebtoken verify can throw that the code
distinguishes: TokenExpiredError (checked first in the middleware) and
the general JsonWebTokenError (bad signature / malformed). -/
inductive JwtError where
  | TokenExpiredError
  | JsonWebTokenError
deriving DecidableEq, Repr

/-- A signed token: the payload claims, issued-at, expiry, and the secret
key that produced the signature. Deterministic HS256 signing means the
token string is a function of exactly these fields. -/
structure Jwt where
  payload : JwtPayload
  iat : Nat
  exp : Nat
  key : String
deriving DecidableEq, Repr

/-- jwt.sign(payload, secret, expiresIn) at clock value now. -/
def jwtSign (payload : JwtPayload) (secret : String) (expiresIn : Nat) (now : Nat) : Jwt :=
  { payload := payload, iat := now, exp := now + expiresIn, key := secret }

/-- jwt.verify(token, secret) at clock value now: signature is checked
first (JsonWebTokenError on mismatch), then expiry (TokenExpiredError
when now has reached exp). -/
def jwtVerify (token : Jwt) (secret : String) (now : Nat) : Except JwtError JwtPayload :=
  if token.key != secret then .error .JsonWebTokenError
  else if token.exp ≤ now then .error .TokenExpiredError
  else .ok token.payload

/-- One minute of clock units (the model clock counts milliseconds). -/
def minuteMs : Nat := 60 * 1000

/-- One day of clock units. -/
def dayMs : Nat := 24 * 60 * minuteMs

/-- config.jwt from config/index.ts: two distinct secrets and the two
expiry windows (defaults 15m for access, 7d for refresh). -/
structure JwtConfig where
  accessSecret : String
  refreshSecret : String
  accessExpiry : Nat
  refreshExpiry : Nat
deriving DecidableEq, Repr

/-- The part of the application config the auth core reads. -/
structure Config where
  jwt : JwtConfig
deriving DecidableEq, Repr

/-- Prisma model RefreshToken: surrogate id, unique token value, owning
userId, absolute expiresAt. -/
structure RefreshTokenRow where
  id : Nat
  token : Jwt
  userId : String
  expiresAt : Nat
deriving DecidableEq, Repr

/-- The database state the auth core touches: the user table and the
refresh-token table. nextId models the id supply for created rows. -/
structure Db where
  users : List User
  refreshTokens : List RefreshTokenRow
  nextId : Nat
deriving DecidableEq, Repr

/-- prisma.user.findUnique where email. -/
def Db.findUserByEmail (db : Db) (email : String) : Option User :=
  db.users.find? (fun u => u.email == email)

/-- prisma.user.findUnique where id. -/
def Db.findUserById (db : Db) (userId : String) : Option User :=
  db.users.find? (fun u => u.id == userId)

/-- prisma.refreshToken.findUnique where token. -/
def Db.findRefreshTokenByToken (db : Db) (token : Jwt) : Option RefreshTokenRow :=
  db.refreshTokens.find? (fun r => r.token == token)

/-- prisma.refreshToken.create. -/
def Db.createRefreshToken (db : Db) (token : Jwt) (userId : String) (expiresAt : Nat) : Db :=
  { db with
    refreshTokens :=
      db.refreshTokens ++ [{ id := db.nextId, token := token, userId := userId, expiresAt := expiresAt }]
    nextId := db.nextId + 1 }

/-- prisma.refreshToken.delete where id. -/
def Db.deleteRefreshTokenById (db : Db) (rowId : Nat) : Db :=
  { db with refreshTokens := db.refreshTokens.filter (fun r => r.id != rowId) }

/-- prisma.refreshToken.deleteMany where token. -/
def Db.deleteRefreshTokensByToken (db : Db) (token : Jwt) : Db :=
  { db with refreshTokens := db.refreshTokens.filter (fun r => r.token != token) }

/-- prisma.refreshToken.deleteMany where userId. -/
def Db.deleteRefreshTokensByUserId (db : Db) (userId : String) : Db :=
  { db with refreshTokens := db.refreshTokens.filter (fun r => r.userId != userId) }

/-- prisma.user.update where id, data passwordHash. -/
def Db.updateUserPasswordHash (db : Db) (userId : String) (newHash : String) : Db :=
  { db with
    users := db.users.map (fun u => if u.id == userId then { u with passwordHash := newHash } else u) }

/-- The distinct failure values the auth core produces, one constructor
per (error class, message) pair thrown in the source:
- invalidEmailOrPassword      = UnauthorizedError, Invalid email or password
- accountDeactivated          = UnauthorizedError, Account is deactivated
- invalidRefreshToken         = UnauthorizedError, Invalid refresh token
- refreshTokenNotFound        = UnauthorizedError, Refresh token not found
- refreshTokenExpired         = UnauthorizedError, Refresh token expired
- userNotFound                = NotFoundError, User
- currentPasswordIncorrect    = BadRequestError, Current password is incorrect
- noTokenProvided             = UnauthorizedError, No token provided
- tokenExpired                = UnauthorizedError, Token expired
- invalidToken                = UnauthorizedError, Invalid token
- userNotFoundOrInactive      = UnauthorizedError, User not found or inactive
- notAuthenticated            = UnauthorizedError, Not authenticated
- insufficientPermissions     = ForbiddenError, Insufficient permissions
- cannotAccessOtherUsersData  = ForbiddenError, Cannot access another users data
- internalError               = any unclassified internal failure (for
  example a broken foreign key, which Prisma prevents). -/
inductive AuthError where
  | invalidEmailOrPassword
  | accountDeactivated
  | invalidRefreshToken
  | refreshTokenNotFound
  | refreshTokenExpired
  | userNotFound
  | currentPasswordIncorrect
  | noTokenProvided
  | tokenExpired
  | invalidToken
  | userNotFoundOrInactive
  | notAuthenticated
  | insufficientPermissions
  | cannotAccessOtherUsersData
  | internalError
deriving DecidableEq, Repr

/-- JavaScript String.toLowerCase, as a computable map over the character
list (the core String.toLower is definitionally opaque). -/
def toLowerString (s : String) : String := ⟨s.data.map Char.toLower⟩

/-- The public user summary login returns: id, email, name, role. -/
structure UserSummary where
  id : String
  email : String
  name : String
  role : Role
deriving DecidableEq, Repr

/-- What login returns on success. -/
structure LoginResult where
  accessToken : Jwt
  refreshToken : Jwt
  user : UserSummary
deriving DecidableEq, Repr

/-- What refreshAccessToken returns on success. -/
structure RefreshResult where
  accessToken : Jwt
  refreshToken : Jwt
deriving DecidableEq, Repr

namespace AuthService

/-- bcrypt.hash with the fixed work factor, modelled as an injective
tagging of the secret (deterministic stand-in for the salted hash). -/
def hashPassword (password : String) : String :=
  "bcrypt-hash:" ++ password

/-- bcrypt.compare: true exactly when the password hashes to the stored
hash. -/
def comparePassword (password : String) (hash : String) : Bool :=
  hash == hashPassword password

/-- AuthService.generateAccessToken: jwt.sign with the access secret and
access expiry. -/
def generateAccessToken (cfg : Config) (payload : JwtPayload) (now : Nat) : Jwt :=
  jwtSign payload cfg.jwt.accessSecret cfg.jwt.accessExpiry now

/-- AuthService.generateRefreshToken: jwt.sign with the refresh secret
and refresh expiry. -/
def generateRefreshToken (cfg : Config) (payload : JwtPayload) (now : Nat) : Jwt :=
  jwtSign payload cfg.jwt.refreshSecret cfg.jwt.refreshExpiry now

/-- AuthService.login, line for line: look up by lowercased email, fail
on missing user, fail on inactive account, fail on password mismatch;
otherwise mint both tokens, store one refresh row whose expiry is
now + 30 days when rememberMe and now + 7 days otherwise, and return the
tokens plus the public summary. -/
def login (cfg : Config) (db : Db) (now : Nat) (email : String) (password : String)
    (rememberMe : Bool) : Except AuthError LoginResult × Db :=
  match db.findUserByEmail (toLowerString email) with
  | none => (.error .invalidEmailOrPassword, db)
  | some user =>
    if !user.active then (.error .accountDeactivated, db)
    else if !comparePassword password user.passwordHash then (.error .invalidEmailOrPassword, db)
    else
      let payload : JwtPayload := { userId := user.id, email := user.email, role := user.role }
      let accessToken := generateAccessToken cfg payload now
      let refreshToken := generateRefreshToken cfg payload now
      let expiresAt := if rememberMe then now + 30 * dayMs else now + 7 * dayMs
      let db1 := db.createRefreshToken refreshToken user.id expiresAt
      (.ok { accessToken := accessToken, refreshToken := refreshToken,
             user := { id := user.id, email := user.email, name := user.name, role := user.role } },
       db1)

/-- AuthService.refreshAccessToken, line for line: jwt.verify under the
refresh secret inside a catch-all that maps every verification failure to
the invalid-refresh-token error; then the stored row is required, its
expiry checked (lazily deleting an expired row), the owning user must be
active; finally the old row is deleted and a fresh row created with the
newly minted refresh token and a fixed 7-day expiry. -/
def refreshAccessToken (cfg : Config) (db : Db) (now : Nat) (refreshToken : Jwt) :
    Except AuthError RefreshResult × Db :=
  match jwtVerify refreshToken cfg.jwt.refreshSecret now with
  | .error _ => (.error .invalidRefreshToken, db)
  | .ok _payload =>
    match db.findRefreshTokenByToken refreshToken with
    | none => (.error .refreshTokenNotFound, db)
    | some storedToken =>
      if storedToken.expiresAt < now then
        (.error .refreshTokenExpired, db.deleteRefreshTokenById storedToken.id)
      else
        match db.findUserById storedToken.userId with
        | none => (.error .internalError, db)
        | some user =>
          if !user.active then (.error .accountDeactivated, db)
          else
            let newPayload : JwtPayload := { userId := user.id, email := user.email, role := user.role }
            let newAccessToken := generateAccessToken cfg newPayload now
            let newRefreshToken := generateRefreshToken cfg newPayload now
            let db1 := (db.deleteRefreshTokenById storedToken.id).createRefreshToken
              newRefreshToken user.id (now + 7 * dayMs)
            (.ok { accessToken := newAccessToken, refreshToken := newRefreshToken }, db1)

/-- AuthService.logout: deleteMany on the exact token value. -/
def logout (db : Db) (refreshToken : Jwt) : Db :=
  db.deleteRefreshTokensByToken refreshToken

/-- AuthService.logoutAll: deleteMany on the owning userId. -/
def logoutAll (db : Db) (userId : String) : Db :=
  db.deleteRefreshTokensByUserId userId

/-- AuthService.changePassword, line for line: NotFound if the user is
absent, BadRequest if the current password fails verification, otherwise
write the new hash and delete every refresh-token row of the user. -/
def changePassword (db : Db) (userId : String) (currentPassword : String)
    (newPassword : String) : Except AuthError Unit × Db :=
  match db.findUserById userId with
  | none => (.error .userNotFound, db)
  | some user =>
    if !comparePassword currentPassword user.passwordHash then
      (.error .currentPasswordIncorrect, db)
    else
      let newHash := hashPassword newPassword
      let db1 := db.updateUserPasswordHash userId newHash
      (.ok (), logoutAll db1 userId)

end AuthService

/-- The Authorization header of a request: absent, present but not of the
Bearer shape, or carrying a bearer token. -/
inductive AuthorizationHeader where
  | absent
  | nonBearer (raw : String)
  | bearer (token : Jwt)
deriving DecidableEq, Repr

/-- The header parsing in authenticate: a token is extracted exactly when
the header starts with the Bearer prefix. -/
def extractToken (h : AuthorizationHeader) : Option Jwt :=
  match h with
  | .bearer token => some token
  | _ => none

/-- The request fields the middleware reads: the Authorization header,
route params, parsed body fields, and the user claims slot the
authenticate middleware fills. -/
structure AuthRequest where
  authorization : AuthorizationHeader
  params : List (String × String)
  body : List (String × String)
  user : Option JwtPayload
deriving DecidableEq, Repr

/-- Field lookup in params or body. -/
def lookupField (l : List (String × String)) (key : String) : Option String :=
  (l.find? (fun p => p.1 == key)).map (fun p => p.2)

/-- The authenticate middleware, line for line: extract the bearer token
(No token provided when absent), jwt.verify under the access secret
(Token expired for TokenExpiredError, Invalid token for other
JsonWebTokenError), re-fetch the user by the id claim selecting only id
and active, fail when missing or inactive, else attach the token payload
to the request. -/
def authenticate (cfg : Config) (db : Db) (now : Nat) (req : AuthRequest) :
    Except AuthError AuthRequest :=
  match extractToken req.authorization with
  | none => .error .noTokenProvided
  | some token =>
    match jwtVerify token cfg.jwt.accessSecret now with
    | .error .TokenExpiredError => .error .tokenExpired
    | .error .JsonWebTokenError => .error .invalidToken
    | .ok payload =>
      match db.findUserById payload.userId with
      | none => .error .userNotFoundOrInactive
      | some user =>
        if !user.active then .error .userNotFoundOrInactive
        else .ok { req with user := some payload }

/-- The requireRole middleware: Not authenticated when no user is
attached, Insufficient permissions when the attached role is not in the
allowed list. -/
def requireRole (roles : List Role) (req : AuthRequest) : Except AuthError Unit :=
  match req.user with
  | none => .error .notAuthenticated
  | some u =>
    if !roles.contains u.role then .error .insufficientPermissions
    else .ok ()

/-- The owner id requireOwnership resolves:
params[paramName] || body[paramName] with JavaScript falsiness, so an
empty-string param falls through to the body. -/
def resourceClientId (paramName : String) (req : AuthRequest) : Option String :=
  match lookupField req.params paramName with
  | some s => if s != "" then some s else lookupField req.body paramName
  | none => lookupField req.body paramName

/-- The requireOwnership middleware, line for line: Not authenticated
when no user is attached; ADMIN passes unconditionally; otherwise the
resolved owner id blocks the request only when it is truthy (non-empty)
and differs from the attached userId. The source default for paramName is
clientId. -/
def requireOwnership (paramName : String) (req : AuthRequest) : Except AuthError Unit :=
  match req.user with
  | none => .error .notAuthenticated
  | some u =>
    if u.role == .ADMIN then .ok ()
    else
      match resourceClientId paramName req with
      | some rid =>
        if rid != "" && rid != u.userId then .error .cannotAccessOtherUsersData
        else .ok ()
      | none => .ok ()

/-
  Concrete fixtures used by witnesses and counterexamples.
-/

/-- A concrete configuration with distinct access and refresh secrets and
the default expiry windows (15 minutes, 7 days). -/
def cfgW : Config :=
  { jwt := { accessSecret := "access-secret", refreshSecret := "refresh-secret",
             accessExpiry := 15 * minuteMs, refreshExpiry := 7 * dayMs } }

/-- An active CLIENT account. -/
def aliceW : User :=
  { id := "u1", email := "alice@example.com", name := "Alice",
    passwordHash := AuthService.hashPassword "alice-pass", role := .CLIENT, active := true }

/-- An inactive CLIENT account. -/
def bobW : User :=
  { id := "u2", email := "bob@example.com", name := "Bob",
    passwordHash := AuthService.hashPassword "bob-pass", role := .CLIENT, active := false }

/-- A database holding the two fixture accounts and no sessions. -/
def dbW : Db := { users := [aliceW, bobW], refreshTokens := [], nextId := 0 }

/-- The JWT payload of the active fixture account. -/
def payloadAliceW : JwtPayload :=
  { userId := "u1", email := "alice@example.com", role := .CLIENT }

/-
  C1. The claim says the disabled check happens after password
  verification, so that a wrong secret on an inactive account fails
  InvalidCredentials. In the source login checks the active flag before
  comparing the password, so an inactive account yields the
  account-deactivated error for every presented secret.
-/

/-- A wrong secret presented against the inactive fixture account fails
with the account-deactivated error, not invalid-email-or-password, even
though the secret does not verify: the active check runs first. -/
theorem login_wrong_secret_inactive_gives_accountDeactivated :
    AuthService.comparePassword "wrong-secret" bobW.passwordHash = false ∧
    (AuthService.login cfgW dbW 0 "bob@example.com" "wrong-secret" false).1 =
      .error .accountDeactivated ∧
    AuthError.accountDeactivated ≠ AuthError.invalidEmailOrPassword := by
  refine ⟨rfl, rfl, by decide⟩

/-- Claim C1 (amended): login checks the active flag before password
verification: every login against an existing inactive account fails
with the account-deactivated error regardless of the presented secret,
and the invalid-credentials error is returned for a wrong secret only on
an active account. -/
theorem login_checks_active_before_password (cfg : Config) (db : Db) (now : Nat)
    (email password : String) (rememberMe : Bool) (user : User)
    (hfind : db.findUserByEmail (toLowerString email) = some user) :
    (user.active = false →
      (AuthService.login cfg db now email password rememberMe).1 = .error .accountDeactivated) ∧
    (user.active = true → AuthService.comparePassword password user.passwordHash = false →
      (AuthService.login cfg db now email password rememberMe).1 =
        .error .invalidEmailOrPassword) := by
  constructor
  · intro hin
    unfold AuthService.login
    rw [hfind]
    simp [hin]
  · intro hact hpw
    unfold AuthService.login
    rw [hfind]
    simp [hact, hpw]

/-- Witness for the amended C1 theorem at the inactive fixture account. -/
theorem login_checks_active_before_password_witness :
    (AuthService.login cfgW dbW 0 "bob@example.com" "any-secret" false).1 =
      .error .accountDeactivated := by
  exact (login_checks_active_before_password cfgW dbW 0 "bob@example.com" "any-secret"
    false bobW (by rfl)).1 (by rfl)

/-
  C2. Rotation is supposed to make refresh tokens single-use. jsonwebtoken
  signing is deterministic and iat has clock granularity, so a refresh
  performed at the same clock value as the issuance of the presented token
  mints a replacement token identical to it; the rotation then deletes the
  old row and stores a row carrying the same token value, and the original
  token refreshes successfully again.
-/

/-- The refresh token issued to the active fixture account at clock 1000. -/
def r1W : Jwt := AuthService.generateRefreshToken cfgW payloadAliceW 1000

/-- The database after the fixture login at clock 1000. -/
def db1W : Db := (AuthService.login cfgW dbW 1000 "alice@example.com" "alice-pass" false).2

/-- The database after refreshing the issued token at clock 1000. -/
def db2W : Db := (AuthService.refreshAccessToken cfgW db1W 1000 r1W).2

/-- Claim C2 (violated by the code): login at clock 1000 issues refresh
token r1W; refreshing r1W at the same clock value succeeds and mints a
replacement identical to r1W, so the stored row again carries the value
r1W; a later second refresh of the same original token r1W then succeeds
instead of failing, so refresh tokens are not single-use. -/
theorem refresh_reuse_after_same_clock_rotation :
    (AuthService.login cfgW dbW 1000 "alice@example.com" "alice-pass" false).1 =
      .ok { accessToken := AuthService.generateAccessToken cfgW payloadAliceW 1000,
            refreshToken := r1W,
            user := { id := "u1", email := "alice@example.com", name := "Alice",
                      role := .CLIENT } } ∧
    (AuthService.refreshAccessToken cfgW db1W 1000 r1W).1 =
      .ok { accessToken := AuthService.generateAccessToken cfgW payloadAliceW 1000,
            refreshToken := r1W } ∧
    (AuthService.refreshAccessToken cfgW db2W 2000 r1W).1 =
      .ok { accessToken := AuthService.generateAccessToken cfgW payloadAliceW 2000,
            refreshToken := AuthService.generateRefreshToken cfgW payloadAliceW 2000 } := by
  refine ⟨rfl, rfl, rfl⟩

/-
  C3. The claim says refresh distinguishes a bad signature (InvalidToken)
  from a passed embedded expiry (TokenExpired). The source wraps jwt.verify
  in a catch-all that maps both failures to the invalid-refresh-token
  error; the distinct refresh-token-expired error is produced only by the
  stored-row expiry check.
-/

/-- A refresh token for the fixture account issued at clock 0, hence with
embedded expiry 7 days. -/
def tExpiredW : Jwt := jwtSign payloadAliceW "refresh-secret" (7 * dayMs) 0

/-- A database holding a live stored row (expiry 30 days) for that token. -/
def dbC3W : Db :=
  { users := [aliceW],
    refreshTokens := [{ id := 0, token := tExpiredW, userId := "u1", expiresAt := 30 * dayMs }],
    nextId := 1 }

/-- A correctly signed refresh token whose embedded expiry has passed
(jwt.verify reports specifically the expired error) and whose stored row
is still live fails refresh with the invalid-refresh-token error, not the
distinct refresh-token-expired error the claim predicts. -/
theorem refresh_embedded_expiry_not_distinguished :
    jwtVerify tExpiredW cfgW.jwt.refreshSecret (8 * dayMs) = .error .TokenExpiredError ∧
    (AuthService.refreshAccessToken cfgW dbC3W (8 * dayMs) tExpiredW).1 =
      .error .invalidRefreshToken ∧
    AuthError.invalidRefreshToken ≠ AuthError.refreshTokenExpired := by
  refine ⟨rfl, rfl, by decide⟩

/-- Claim C3 (amended): every token-codec failure in refresh, bad
signature and passed embedded expiry alike, surfaces as the
invalid-refresh-token error; the distinct refresh-token-expired error is
surfaced exactly when the codec accepts the token and the stored row
exists with a passed expiresAt; the two error values are
distinguishable. -/
theorem refresh_error_kinds (cfg : Config) (db : Db) (now : Nat) (t : Jwt) :
    (∀ e, jwtVerify t cfg.jwt.refreshSecret now = .error e →
      (AuthService.refreshAccessToken cfg db now t).1 = .error .invalidRefreshToken) ∧
    (∀ p row, jwtVerify t cfg.jwt.refreshSecret now = .ok p →
      db.findRefreshTokenByToken t = some row → row.expiresAt < now →
      AuthService.refreshAccessToken cfg db now t =
        (.error .refreshTokenExpired, db.deleteRefreshTokenById row.id)) ∧
    AuthError.invalidRefreshToken ≠ AuthError.refreshTokenExpired := by
  refine ⟨?_, ?_, by decide⟩
  · intro e hv
    unfold AuthService.refreshAccessToken
    rw [hv]
  · intro p row hv hrow hexp
    unfold AuthService.refreshAccessToken
    rw [hv, hrow]
    simp [hexp]

/-- Witness for the amended C3 theorem: the two branches at concrete
inputs (a token with a wrong key; a stored row whose expiry passed). -/
theorem refresh_error_kinds_witness :
    (AuthService.refreshAccessToken cfgW dbW 0
      (jwtSign payloadAliceW "wrong-secret" (7 * dayMs) 0)).1 = .error .invalidRefreshToken ∧
    AuthService.refreshAccessToken cfgW
      { users := [aliceW],
        refreshTokens := [{ id := 5, token := r1W, userId := "u1", expiresAt := 2000 }],
        nextId := 6 } 3000 r1W =
      (.error .refreshTokenExpired,
       { users := [aliceW], refreshTokens := [], nextId := 6 }) := by
  constructor
  · exact (refresh_error_kinds cfgW dbW 0
      (jwtSign payloadAliceW "wrong-secret" (7 * dayMs) 0)).1 .JsonWebTokenError (by rfl)
  · have h := (refresh_error_kinds cfgW
      { users := [aliceW],
        refreshTokens := [{ id := 5, token := r1W, userId := "u1", expiresAt := 2000 }],
        nextId := 6 } 3000 r1W).2.1 payloadAliceW
      { id := 5, token := r1W, userId := "u1", expiresAt := 2000 } (by rfl) (by rfl) (by decide)
    simpa [Db.deleteRefreshTokenById] using h

/-
  C4. changePassword: atomic on failure, complete on success.
-/

/-- Updating the password hash of the user a find returns makes the same
find return that user with the new hash. -/
theorem find_after_hash_update (l : List User) (uid h : String) (user : User)
    (hfind : l.find? (fun u => u.id == uid) = some user) :
    (l.map (fun u => if u.id == uid then { u with passwordHash := h } else u)).find?
      (fun u => u.id == uid) = some { user with passwordHash := h } := by
  induction l with
  | nil => simp at hfind
  | cons a l ih =>
    cases ha : a.id == uid with
    | true =>
      simp only [List.find?, ha] at hfind
      have hu : a = user := by injection hfind
      subst hu
      simp [List.find?, ha]
    | false =>
      simp only [List.find?, ha] at hfind
      simp only [List.map_cons, ha, if_false, Bool.false_eq_true]
      simp only [List.find?, ha]
      exact ih hfind

/-- Claim C4: with a wrong current secret changePassword fails with the
current-password-incorrect error and leaves the whole database unchanged
(hash and session rows included); with a correct current secret it
succeeds, the stored hash becomes the hash of the new secret, every
refresh-token row of the principal is deleted, and refreshing any token
that only ever had rows owned by this principal fails. -/
theorem changePassword_atomic_and_complete (db : Db) (uid cur new : String) (user : User)
    (hfind : db.findUserById uid = some user) :
    (AuthService.comparePassword cur user.passwordHash = false →
      AuthService.changePassword db uid cur new = (.error .currentPasswordIncorrect, db)) ∧
    (AuthService.comparePassword cur user.passwordHash = true →
      (AuthService.changePassword db uid cur new).1 = .ok () ∧
      ((AuthService.changePassword db uid cur new).2).findUserById uid =
        some { user with passwordHash := AuthService.hashPassword new } ∧
      (∀ r ∈ ((AuthService.changePassword db uid cur new).2).refreshTokens, r.userId ≠ uid) ∧
      (∀ cfg now t, (∀ r ∈ db.refreshTokens, r.token = t → r.userId = uid) →
        (AuthService.refreshAccessToken cfg ((AuthService.changePassword db uid cur new).2)
            now t).1 = .error .invalidRefreshToken ∨
        (AuthService.refreshAccessToken cfg ((AuthService.changePassword db uid cur new).2)
            now t).1 = .error .refreshTokenNotFound)) := by
  constructor
  · intro hpw
    unfold AuthService.changePassword
    rw [hfind]
    simp [hpw]
  · intro hpw
    have hred : AuthService.changePassword db uid cur new =
        (.ok (), AuthService.logoutAll
          (db.updateUserPasswordHash uid (AuthService.hashPassword new)) uid) := by
      unfold AuthService.changePassword
      rw [hfind]
      simp [hpw]
    rw [hred]
    have husers : (AuthService.logoutAll
        (db.updateUserPasswordHash uid (AuthService.hashPassword new)) uid).users =
        db.users.map (fun u => if u.id == uid then
          { u with passwordHash := AuthService.hashPassword new } else u) := rfl
    have hrows : (AuthService.logoutAll
        (db.updateUserPasswordHash uid (AuthService.hashPassword new)) uid).refreshTokens =
        db.refreshTokens.filter (fun r => r.userId != uid) := rfl
    refine ⟨rfl, ?_, ?_, ?_⟩
    · show (AuthService.logoutAll
        (db.updateUserPasswordHash uid (AuthService.hashPassword new)) uid).users.find?
          (fun u => u.id == uid) = _
      rw [husers]
      exact find_after_hash_update db.users uid (AuthService.hashPassword new) user hfind
    · intro r hr
      rw [hrows] at hr
      have := List.mem_filter.mp hr
      simpa using this.2
    · intro cfg now t howner
      unfold AuthService.refreshAccessToken
      cases hv : jwtVerify t cfg.jwt.refreshSecret now with
      | error e => left; rfl
      | ok p =>
        right
        have hnone : (AuthService.logoutAll
            (db.updateUserPasswordHash uid (AuthService.hashPassword new))
              uid).findRefreshTokenByToken t = none := by
          show ((AuthService.logoutAll
            (db.updateUserPasswordHash uid (AuthService.hashPassword new))
              uid).refreshTokens.find? (fun r => r.token == t)) = none
          rw [hrows]
          rw [List.find?_eq_none]
          intro r hr hbeq
          have hmem := List.mem_filter.mp hr
          have ht : r.token = t := by simpa using hbeq
          have huid : r.userId = uid := howner r hmem.1 ht
          have : r.userId ≠ uid := by simpa using hmem.2
          exact this huid
        rw [hnone]

/-- A refresh token for the active fixture account issued at clock 0. -/
def rAliceSessW : Jwt := AuthService.generateRefreshToken cfgW payloadAliceW 0

/-- A database where the active fixture account has one live session. -/
def dbC4W : Db :=
  { users := [aliceW, bobW],
    refreshTokens := [{ id := 0, token := rAliceSessW, userId := "u1", expiresAt := 7 * dayMs }],
    nextId := 1 }

/-- Witness for the C4 theorem: the success branch at a concrete database
with one session; the previously issued token no longer refreshes. -/
theorem changePassword_atomic_and_complete_witness :
    (AuthService.changePassword dbC4W "u1" "alice-pass" "new-pass").1 = .ok () ∧
    ((AuthService.changePassword dbC4W "u1" "alice-pass" "new-pass").2).findUserById "u1" =
      some { aliceW with passwordHash := AuthService.hashPassword "new-pass" } ∧
    ((AuthService.refreshAccessToken cfgW
        ((AuthService.changePassword dbC4W "u1" "alice-pass" "new-pass").2)
        100 rAliceSessW).1 = .error .invalidRefreshToken ∨
     (AuthService.refreshAccessToken cfgW
        ((AuthService.changePassword dbC4W "u1" "alice-pass" "new-pass").2)
        100 rAliceSessW).1 = .error .refreshTokenNotFound) := by
  have h := changePassword_atomic_and_complete dbC4W "u1" "alice-pass" "new-pass" aliceW
    (by rfl)
  have h2 := h.2 (by rfl)
  exact ⟨h2.1, h2.2.1, h2.2.2.2 cfgW 100 rAliceSessW (by decide)⟩

/-
  C5. Successful login: one new session row with the rememberMe-dependent
  expiry, tokens embedding the stored attributes, and a hashless summary.
-/

/-- Claim C5: a login with a correct secret on an active account returns
exactly the two freshly minted tokens, both embedding the stored id,
email and role of the principal, and a summary carrying exactly id,
email, name and role (the UserSummary type has no hash field); the user
table is untouched and exactly one refresh-token row is appended, whose
expiry is now plus 30 days when rememberMe is set and now plus 7 days
otherwise. -/
theorem login_success_spec (cfg : Config) (db : Db) (now : Nat) (email password : String)
    (rememberMe : Bool) (user : User)
    (hfind : db.findUserByEmail (toLowerString email) = some user)
    (hact : user.active = true)
    (hpw : AuthService.comparePassword password user.passwordHash = true) :
    ∃ res db2, AuthService.login cfg db now email password rememberMe = (.ok res, db2) ∧
      res.accessToken = AuthService.generateAccessToken cfg
        { userId := user.id, email := user.email, role := user.role } now ∧
      res.refreshToken = AuthService.generateRefreshToken cfg
        { userId := user.id, email := user.email, role := user.role } now ∧
      res.accessToken.payload = { userId := user.id, email := user.email, role := user.role } ∧
      res.refreshToken.payload = { userId := user.id, email := user.email, role := user.role } ∧
      res.user = { id := user.id, email := user.email, name := user.name, role := user.role } ∧
      db2.users = db.users ∧
      db2.refreshTokens = db.refreshTokens ++
        [{ id := db.nextId, token := res.refreshToken, userId := user.id,
           expiresAt := if rememberMe then now + 30 * dayMs else now + 7 * dayMs }] := by
  refine ⟨{ accessToken := AuthService.generateAccessToken cfg
              { userId := user.id, email := user.email, role := user.role } now,
            refreshToken := AuthService.generateRefreshToken cfg
              { userId := user.id, email := user.email, role := user.role } now,
            user := { id := user.id, email := user.email, name := user.name,
                      role := user.role } },
          Db.createRefreshToken db
            (AuthService.generateRefreshToken cfg
              { userId := user.id, email := user.email, role := user.role } now)
            user.id (if rememberMe then now + 30 * dayMs else now + 7 * dayMs),
          ?_, rfl, rfl, rfl, rfl, rfl, rfl, rfl⟩
  unfold AuthService.login
  rw [hfind]
  simp [hact, hpw]

/-- Witness for the C5 theorem at the active fixture account, logging in
with a mixed-case email and rememberMe set. -/
theorem login_success_spec_witness :
    ∃ res db2,
      AuthService.login cfgW dbW 500 "Alice@Example.com" "alice-pass" true = (.ok res, db2) ∧
      res.accessToken = AuthService.generateAccessToken cfgW
        { userId := aliceW.id, email := aliceW.email, role := aliceW.role } 500 ∧
      res.refreshToken = AuthService.generateRefreshToken cfgW
        { userId := aliceW.id, email := aliceW.email, role := aliceW.role } 500 ∧
      res.accessToken.payload =
        { userId := aliceW.id, email := aliceW.email, role := aliceW.role } ∧
      res.refreshToken.payload =
        { userId := aliceW.id, email := aliceW.email, role := aliceW.role } ∧
      res.user = { id := aliceW.id, email := aliceW.email, name := aliceW.name,
                   role := aliceW.role } ∧
      db2.users = dbW.users ∧
      db2.refreshTokens = dbW.refreshTokens ++
        [{ id := dbW.nextId, token := res.refreshToken, userId := aliceW.id,
           expiresAt := if true then 500 + 30 * dayMs else 500 + 7 * dayMs }] := by
  exact login_success_spec cfgW dbW 500 "Alice@Example.com" "alice-pass" true aliceW
    (by rfl) (by rfl) (by rfl)

/-
  C6 and C7. The authenticate middleware.
-/

/-- A request carrying a given Authorization header and nothing else. -/
def reqW (a : AuthorizationHeader) : AuthRequest :=
  { authorization := a, params := [], body := [], user := none }

/-- Claim C6: authenticate fails with the no-token-provided error on
every request without a bearer token, with the invalid-token error on
every bearer token whose signature does not verify under the access
secret, and with the token-expired error on every correctly signed
bearer token whose expiry has passed; the three error values are
pairwise distinct. -/
theorem authenticate_failure_kinds (cfg : Config) (db : Db) (now : Nat) (req : AuthRequest) :
    (extractToken req.authorization = none →
      authenticate cfg db now req = .error .noTokenProvided) ∧
    (∀ t, extractToken req.authorization = some t → t.key ≠ cfg.jwt.accessSecret →
      authenticate cfg db now req = .error .invalidToken) ∧
    (∀ t, extractToken req.authorization = some t → t.key = cfg.jwt.accessSecret →
      t.exp ≤ now → authenticate cfg db now req = .error .tokenExpired) ∧
    (AuthError.noTokenProvided ≠ AuthError.invalidToken ∧
      AuthError.noTokenProvided ≠ AuthError.tokenExpired ∧
      AuthError.invalidToken ≠ AuthError.tokenExpired) := by
  refine ⟨?_, ?_, ?_, by decide⟩
  · intro h
    unfold authenticate
    rw [h]
  · intro t ht hkey
    unfold authenticate
    rw [ht]
    have hv : jwtVerify t cfg.jwt.accessSecret now = .error .JsonWebTokenError := by
      unfold jwtVerify
      simp [hkey]
    simp [hv]
  · intro t ht hkey hexp
    unfold authenticate
    rw [ht]
    have hv : jwtVerify t cfg.jwt.accessSecret now = .error .TokenExpiredError := by
      unfold jwtVerify
      simp [hkey, hexp]
    simp [hv]

/-- Witness for the C6 theorem: no header, a token signed with the
refresh secret instead of the access secret, and an access token past
its 15-minute expiry. -/
theorem authenticate_failure_kinds_witness :
    authenticate cfgW dbW 0 (reqW .absent) = .error .noTokenProvided ∧
    authenticate cfgW dbW 0
      (reqW (.bearer (jwtSign payloadAliceW "refresh-secret" (15 * minuteMs) 0))) =
      .error .invalidToken ∧
    authenticate cfgW dbW (20 * minuteMs)
      (reqW (.bearer (AuthService.generateAccessToken cfgW payloadAliceW 0))) =
      .error .tokenExpired := by
  refine ⟨?_, ?_, ?_⟩
  · exact (authenticate_failure_kinds cfgW dbW 0 (reqW .absent)).1 (by rfl)
  · exact (authenticate_failure_kinds cfgW dbW 0
      (reqW (.bearer (jwtSign payloadAliceW "refresh-secret" (15 * minuteMs) 0)))).2.1
      (jwtSign payloadAliceW "refresh-secret" (15 * minuteMs) 0) (by rfl) (by decide)
  · exact (authenticate_failure_kinds cfgW dbW (20 * minuteMs)
      (reqW (.bearer (AuthService.generateAccessToken cfgW payloadAliceW 0)))).2.2.1
      (AuthService.generateAccessToken cfgW payloadAliceW 0) (by rfl) (by rfl) (by decide)

/-- Claim C7: on a validly signed, unexpired bearer token, authenticate
re-fetches the principal by the id embedded in the token and fails with
the user-not-found-or-inactive error when the principal is absent or its
active flag is false; it succeeds, attaching the token payload, exactly
when the principal exists and is active. -/
theorem authenticate_refetches_principal (cfg : Config) (db : Db) (now : Nat)
    (req : AuthRequest) (t : Jwt)
    (hext : extractToken req.authorization = some t)
    (hkey : t.key = cfg.jwt.accessSecret)
    (hfresh : now < t.exp) :
    (db.findUserById t.payload.userId = none →
      authenticate cfg db now req = .error .userNotFoundOrInactive) ∧
    (∀ user, db.findUserById t.payload.userId = some user → user.active = false →
      authenticate cfg db now req = .error .userNotFoundOrInactive) ∧
    (∀ user, db.findUserById t.payload.userId = some user → user.active = true →
      authenticate cfg db now req = .ok { req with user := some t.payload }) := by
  have hv : jwtVerify t cfg.jwt.accessSecret now = .ok t.payload := by
    unfold jwtVerify
    simp [hkey, Nat.not_le.mpr hfresh]
  refine ⟨?_, ?_, ?_⟩
  · intro hnone
    unfold authenticate
    rw [hext]
    simp [hv, hnone]
  · intro user hu hin
    unfold authenticate
    rw [hext]
    simp [hv, hu, hin]
  · intro user hu hact
    unfold authenticate
    rw [hext]
    simp [hv, hu, hact]

/-- The payload of the inactive fixture account. -/
def payloadBobW : JwtPayload := { userId := "u2", email := "bob@example.com", role := .CLIENT }

/-- A payload whose id matches no stored account. -/
def payloadGhostW : JwtPayload :=
  { userId := "u9", email := "ghost@example.com", role := .CLIENT }

/-- Witness for the C7 theorem: an unknown id and an inactive account
both fail, the active account proceeds with the token payload attached. -/
theorem authenticate_refetches_principal_witness :
    authenticate cfgW dbW 0
      (reqW (.bearer (AuthService.generateAccessToken cfgW payloadGhostW 0))) =
      .error .userNotFoundOrInactive ∧
    authenticate cfgW dbW 0
      (reqW (.bearer (AuthService.generateAccessToken cfgW payloadBobW 0))) =
      .error .userNotFoundOrInactive ∧
    authenticate cfgW dbW 0
      (reqW (.bearer (AuthService.generateAccessToken cfgW payloadAliceW 0))) =
      .ok { reqW (.bearer (AuthService.generateAccessToken cfgW payloadAliceW 0)) with
            user := some payloadAliceW } := by
  refine ⟨?_, ?_, ?_⟩
  · exact (authenticate_refetches_principal cfgW dbW 0
      (reqW (.bearer (AuthService.generateAccessToken cfgW payloadGhostW 0)))
      (AuthService.generateAccessToken cfgW payloadGhostW 0)
      (by rfl) (by rfl) (by decide)).1 (by rfl)
  · exact (authenticate_refetches_principal cfgW dbW 0
      (reqW (.bearer (AuthService.generateAccessToken cfgW payloadBobW 0)))
      (AuthService.generateAccessToken cfgW payloadBobW 0)
      (by rfl) (by rfl) (by decide)).2.1 bobW (by rfl) (by rfl)
  · exact (authenticate_refetches_principal cfgW dbW 0
      (reqW (.bearer (AuthService.generateAccessToken cfgW payloadAliceW 0)))
      (AuthService.generateAccessToken cfgW payloadAliceW 0)
      (by rfl) (by rfl) (by decide)).2.2 aliceW (by rfl) (by rfl)

/-
  C8 and C9. The requireOwnership middleware.
-/

/-- Claim C8: on an authenticated request an ADMIN principal passes the
ownership check unconditionally, and a CLIENT principal fails with the
forbidden error whenever the owner id resolved from the request (path
parameter, falling back to the body field) is non-empty and differs from
the principal id. -/
theorem requireOwnership_admin_bypass_client_forbidden (paramName : String)
    (req : AuthRequest) (claims : JwtPayload) (huser : req.user = some claims) :
    (claims.role = .ADMIN → requireOwnership paramName req = .ok ()) ∧
    (claims.role = .CLIENT → ∀ rid, resourceClientId paramName req = some rid →
      rid ≠ "" → rid ≠ claims.userId →
      requireOwnership paramName req = .error .cannotAccessOtherUsersData) := by
  constructor
  · intro hrole
    unfold requireOwnership
    rw [huser]
    simp [hrole]
  · intro hrole rid hrid hempty hneq
    unfold requireOwnership
    rw [huser]
    simp [hrole, hrid, hempty, hneq]

/-- A request from an ADMIN principal naming a different owner id. -/
def reqAdminOtherW : AuthRequest :=
  { authorization := .absent, params := [("clientId", "u1")], body := [],
    user := some { userId := "u3", email := "admin@example.com", role := .ADMIN } }

/-- A request from the CLIENT fixture naming a different owner id. -/
def reqClientOtherW : AuthRequest :=
  { authorization := .absent, params := [("clientId", "u2")], body := [],
    user := some payloadAliceW }

/-- Witness for the C8 theorem: the admin passes on a foreign owner id,
the client is forbidden on the same shape of request. -/
theorem requireOwnership_admin_bypass_client_forbidden_witness :
    requireOwnership "clientId" reqAdminOtherW = .ok () ∧
    requireOwnership "clientId" reqClientOtherW = .error .cannotAccessOtherUsersData := by
  constructor
  · exact (requireOwnership_admin_bypass_client_forbidden "clientId" reqAdminOtherW
      { userId := "u3", email := "admin@example.com", role := .ADMIN } (by rfl)).1 (by rfl)
  · exact (requireOwnership_admin_bypass_client_forbidden "clientId" reqClientOtherW
      payloadAliceW (by rfl)).2 (by rfl) "u2" (by rfl) (by decide) (by decide)

/-- Claim C9: for a CLIENT principal the ownership check passes when the
owner id field is absent from both params and body or resolves to the
empty string, and every failure of the check exhibits a non-empty
resolved owner id different from the principal id. -/
theorem requireOwnership_missing_owner_passes (paramName : String) (req : AuthRequest)
    (claims : JwtPayload) (huser : req.user = some claims) (hrole : claims.role = .CLIENT) :
    (resourceClientId paramName req = none → requireOwnership paramName req = .ok ()) ∧
    (resourceClientId paramName req = some "" → requireOwnership paramName req = .ok ()) ∧
    (∀ e, requireOwnership paramName req = .error e →
      e = .cannotAccessOtherUsersData ∧
      ∃ rid, resourceClientId paramName req = some rid ∧ rid ≠ "" ∧
        rid ≠ claims.userId) := by
  refine ⟨?_, ?_, ?_⟩
  · intro h
    unfold requireOwnership
    rw [huser]
    simp [hrole, h]
  · intro h
    unfold requireOwnership
    rw [huser]
    simp [hrole, h]
  · intro e he
    unfold requireOwnership at he
    rw [huser] at he
    simp only [hrole, show (Role.CLIENT == Role.ADMIN) = false from rfl,
      Bool.false_eq_true, if_false] at he
    cases hres : resourceClientId paramName req with
    | none =>
      rw [hres] at he
      simp at he
    | some rid =>
      rw [hres] at he
      by_cases hc : (rid != "" && rid != claims.userId) = true
      · simp only [hc, if_true] at he
        have he2 : AuthError.cannotAccessOtherUsersData = e := by
          cases he
          rfl
        have hb : rid ≠ "" ∧ rid ≠ claims.userId := by simpa using hc
        refine ⟨he2.symm, rid, rfl, hb.1, hb.2⟩
      · simp only [hc, if_false] at he
        simp at he

/-- A CLIENT request with no owner id anywhere. -/
def reqClientNoOwnerW : AuthRequest :=
  { authorization := .absent, params := [], body := [("note", "x")],
    user := some payloadAliceW }

/-- Witness for the C9 theorem: a CLIENT request with no owner id field
passes the ownership check. -/
theorem requireOwnership_missing_owner_passes_witness :
    requireOwnership "clientId" reqClientNoOwnerW = .ok () := by
  exact (requireOwnership_missing_owner_passes "clientId" reqClientNoOwnerW payloadAliceW
    (by rfl) (by rfl)).1 (by rfl)

/-
  C10. The attached claims are the token claims, not the stored row.
-/

/-- Claim C10: authenticate attaches exactly the payload embedded in the
access token; the store lookup constrains only existence and the active
flag, so the stored email and role (universally quantified here and
absent from the conclusion) do not influence the attached claims, and the
subsequent role check reads the token role. -/
theorem authenticate_attaches_token_claims (cfg : Config) (db : Db) (now : Nat)
    (req : AuthRequest) (t : Jwt) (user : User) (roles : List Role)
    (hext : extractToken req.authorization = some t)
    (hkey : t.key = cfg.jwt.accessSecret)
    (hfresh : now < t.exp)
    (hfind : db.findUserById t.payload.userId = some user)
    (hact : user.active = true) :
    authenticate cfg db now req = .ok { req with user := some t.payload } ∧
    (roles.contains t.payload.role = true →
      requireRole roles { req with user := some t.payload } = .ok ()) ∧
    (roles.contains t.payload.role = false →
      requireRole roles { req with user := some t.payload } =
        .error .insufficientPermissions) := by
  have hv : jwtVerify t cfg.jwt.accessSecret now = .ok t.payload := by
    unfold jwtVerify
    simp [hkey, Nat.not_le.mpr hfresh]
  refine ⟨?_, ?_, ?_⟩
  · unfold authenticate
    rw [hext]
    simp [hv, hfind, hact]
  · intro hc
    unfold requireRole
    have hm : t.payload.role ∈ roles := by simpa using hc
    simp [hm]
  · intro hc
    unfold requireRole
    have hm : t.payload.role ∉ roles := by simpa using hc
    simp [hm]

/-- A payload for the active fixture account as it was at some earlier
time: a different email and the ADMIN role, unlike the stored row. -/
def payloadStaleW : JwtPayload :=
  { userId := "u1", email := "old@example.com", role := .ADMIN }

/-- Witness for the C10 theorem: the stored row for u1 has role CLIENT
and a different email, yet the stale token authenticates, attaches its
own claims, and passes an ADMIN-only role check. -/
theorem authenticate_attaches_token_claims_witness :
    aliceW.role = .CLIENT ∧
    authenticate cfgW dbW 0
      (reqW (.bearer (AuthService.generateAccessToken cfgW payloadStaleW 0))) =
      .ok { reqW (.bearer (AuthService.generateAccessToken cfgW payloadStaleW 0)) with
            user := some payloadStaleW } ∧
    requireRole [.ADMIN]
      { reqW (.bearer (AuthService.generateAccessToken cfgW payloadStaleW 0)) with
        user := some payloadStaleW } = .ok () := by
  have h := authenticate_attaches_token_claims cfgW dbW 0
    (reqW (.bearer (AuthService.generateAccessToken cfgW payloadStaleW 0)))
    (AuthService.generateAccessToken cfgW payloadStaleW 0) aliceW [.ADMIN]
    (by rfl) (by rfl) (by decide) (by rfl) (by rfl)
  exact ⟨by rfl, h.1, h.2.1 (by rfl)⟩

end FitnessPortal

